import Mathlib

/-!
Verification of the room-chat subsystem of a Tic-Tac-Toe backend.

The JavaScript source is embedded shallowly:
- JavaScript strings are Lean `String` (a list of characters).
- An argument that may be `undefined`/`null` is an `Option`; JavaScript string
  truthiness (`!s` is true exactly for absent or empty strings) is `truthy`.
- The single-character global regex replaces of `ValidationMiddleware.sanitizeHtml`
  are `jsReplaceAll`.
- The message store (a SQL table the model layer appends to and range-reads from)
  is a list of rows in insertion order; reads are modelled total (the in-memory
  test double of the storage contract).
- Socket.IO emissions are reified as an `Effect` list returned by each handler,
  so that "nothing is broadcast" and "an error is reported to the caller only"
  are statements about that list.
-/

/-- JavaScript string truthiness for an optional string value: `!s` holds
exactly when the value is absent (`undefined`/`null`) or the empty string. -/
def truthy : Option String → Bool
  | none => false
  | some s => !(s == "")

/-- Whitespace characters removed by JavaScript `String.prototype.trim`
(the forms that occur in this development). -/
def isWs (c : Char) : Bool :=
  c == ' ' || c == '\t' || c == '\n' || c == '\r'

/-- JavaScript `String.prototype.trim`: drop leading and trailing whitespace. -/
def jsTrim (s : String) : String :=
  ⟨((s.data.dropWhile isWs).reverse.dropWhile isWs).reverse⟩

/-- The double-quote character. -/
def quoteChar : Char := Char.ofNat 34

/-- The apostrophe character. -/
def aposChar : Char := Char.ofNat 39

/-- JavaScript `input.replace(/c/g, repl)` for a single-character pattern `c`:
every occurrence of `c` is replaced by `repl`, other characters are kept. -/
def jsReplaceAll (target : Char) (repl : List Char) : List Char → List Char
  | [] => []
  | a :: s => (if a = target then repl else [a]) ++ jsReplaceAll target repl s

/-- `ValidationMiddleware.sanitizeHtml` on the character list: the six global
replaces applied in the source's order (`&`, `<`, `>`, `"`, `'`, `/`). -/
def sanitizeChars (s : List Char) : List Char :=
  jsReplaceAll '/' "&#x2F;".data
    (jsReplaceAll aposChar "&#x27;".data
      (jsReplaceAll quoteChar "&quot;".data
        (jsReplaceAll '>' "&gt;".data
          (jsReplaceAll '<' "&lt;".data
            (jsReplaceAll '&' "&amp;".data s)))))

/-- `ValidationMiddleware.sanitizeHtml` (string-typed input case). -/
def sanitizeHtml (s : String) : String :=
  ⟨sanitizeChars s.data⟩

/-- The HTML entity the spec assigns to one character (identity elsewhere). -/
def escapeChar (c : Char) : List Char :=
  if c = '&' then "&amp;".data
  else if c = '<' then "&lt;".data
  else if c = '>' then "&gt;".data
  else if c = quoteChar then "&quot;".data
  else if c = aposChar then "&#x27;".data
  else if c = '/' then "&#x2F;".data
  else [c]

/-- Single-pass escaping, stated the way the spec words it: each character of
the input replaced once by its entity, left to right. Used as the comparison
point for the refinement claim about `sanitizeHtml`. -/
def escapeAll : List Char → List Char
  | [] => []
  | a :: s => escapeChar a ++ escapeAll s

/-- Spec-worded sanitizer on strings. -/
def sanitizeSpec (s : String) : String :=
  ⟨escapeAll s.data⟩

/-- Outcome of a validator: the source's tagged `{isValid, error}` object. -/
inductive VResult
  | invalid (error : String)
  | valid
deriving Repr, DecidableEq

/-- `ValidationMiddleware.validateRoomId`: absent and empty strings are falsy
and fail the `!roomId` guard; then empty-after-trim and the 100-character
bound are checked. (Non-string inputs are outside this embedding's domain.) -/
def validateRoomId : Option String → VResult
  | none => .invalid "roomId is required"
  | some s =>
    if s = "" then .invalid "roomId is required"
    else if (jsTrim s).length = 0 then .invalid "roomId cannot be empty"
    else if s.length > 100 then .invalid "roomId too long (max 100 characters)"
    else .valid

/-- Outcome of `ValidationMiddleware.validatePagination`: either an error or
the sanitized limit/offset pair. -/
inductive PagResult
  | invalid (error : String)
  | valid (sanitizedLimit sanitizedOffset : Int)
deriving Repr, DecidableEq

/-- `ValidationMiddleware.validatePagination` for integer-or-absent inputs
(`parseInt` on an integer is the integer itself): an absent limit defaults to
50 and an absent offset to 0; a present limit must lie in `[1,100]` and a
present offset must be non-negative. -/
def validatePagination (limit offset : Option Int) : PagResult :=
  match limit with
  | none =>
    match offset with
    | none => .valid 50 0
    | some o =>
      if o < 0 then .invalid "offset must be a non-negative integer"
      else .valid 50 o
  | some l =>
    if l < 1 then .invalid "limit must be a positive integer"
    else if l > 100 then .invalid "limit cannot exceed 100"
    else
      match offset with
      | none => .valid l 0
      | some o =>
        if o < 0 then .invalid "offset must be a non-negative integer"
        else .valid l o

/-- One entry of the rate-limit store: request count and window reset time. -/
structure RateEntry where
  requests : Nat
  resetTime : Nat
deriving Repr, DecidableEq

/-- The lazily created `rateLimitStore` map, identifier to entry. -/
abbrev RateStore := List (String × RateEntry)

/-- Map lookup on the rate-limit store. -/
def rateLookup (store : RateStore) (id : String) : Option RateEntry :=
  match store.find? (fun p => p.1 == id) with
  | none => none
  | some p => some p.2

/-- `Map.set`: replace the entry for `id` when present, append it otherwise. -/
def rateSet (store : RateStore) (id : String) (e : RateEntry) : RateStore :=
  match store.find? (fun p => p.1 == id) with
  | none => store ++ [(id, e)]
  | some _ => store.map (fun p => if p.1 == id then (id, e) else p)

/-- `ValidationMiddleware.checkRateLimit` with the clock passed explicitly:
returns whether the request is allowed together with the updated store. -/
def checkRateLimit (store : RateStore) (identifier : String)
    (maxRequests windowMs now : Nat) : Bool × RateStore :=
  match rateLookup store identifier with
  | none => (true, rateSet store identifier ⟨1, now + windowMs⟩)
  | some e =>
    if now > e.resetTime then
      (true, rateSet store identifier ⟨1, now + windowMs⟩)
    else if e.requests ≥ maxRequests then
      (false, store)
    else
      (true, rateSet store identifier ⟨e.requests + 1, e.resetTime⟩)

/-- A persisted chat message row; the store assigns id and timestamp at append
time, which the claims under verification do not inspect. -/
structure Row where
  room_id : String
  sender_id : String
  content : String
deriving Repr, DecidableEq

/-- The `chat_message` table in insertion order. -/
abbrev MessageStore := List Row

/-- `chatModel.saveMessage`: append a row and return it. -/
def saveMessage (store : MessageStore) (roomId senderId content : String) :
    MessageStore × Row :=
  (store ++ [⟨roomId, senderId, content⟩], ⟨roomId, senderId, content⟩)

/-- `chatModel.getMessagesByRoom`: the rows of the room in creation order,
skipping `offset` and taking at most `limit` (total model of the range read). -/
def getMessagesByRoom (store : MessageStore) (roomId : String)
    (limit offset : Int) : List Row :=
  (((store.filter (fun r => r.room_id == roomId)).drop offset.toNat).take
    limit.toNat)

/-- Outcome of `ChatService.sendMessage`: the source's `{success, data|error}`. -/
inductive SendOutcome
  | ok (row : Row)
  | err (msg : String)
deriving Repr, DecidableEq

/-- `ChatService.sendMessage`: presence guard, trim, emptiness and length
checks, then `saveMessage` with the trimmed content. No sanitization occurs
on this path. -/
def sendMessage (store : MessageStore) (roomId senderId content : Option String) :
    MessageStore × SendOutcome :=
  if !(truthy roomId && truthy senderId && truthy content) then
    (store, .err "roomId, senderId, and content are required")
  else
    let trimmedContent := jsTrim (content.getD "")
    if trimmedContent.length = 0 then
      (store, .err "Message content cannot be empty")
    else if trimmedContent.length > 1000 then
      (store, .err "Message content too long (max 1000 characters)")
    else
      let r := saveMessage store (roomId.getD "") (senderId.getD "") trimmedContent
      (r.1, .ok r.2)

/-- An observable side effect of a socket handler. `emitSelf` delivers to the
calling connection only; `emitRoomOthers` is `socket.to(room).emit` (room
members except the caller); `emitReceiveAll` is `io.to(room).emit("chat:receive", …)`
(every room member, sender included); `joinTransport` is `socket.join`;
`storeQuery` records a range read reaching the message store with the given
limit and offset; `emitHistory` is the `chat:history` reply to the caller. -/
inductive Effect
  | emitSelf (event : String) (message : String)
  | emitJoined (roomId userId : String)
  | emitRoomOthers (room event : String) (fields : List (String × String))
  | emitReceiveAll (room : String) (row : Row) (socketId : String)
  | joinTransport (room : String)
  | storeQuery (room : String) (limit offset : Int)
  | emitHistory (roomId : String) (limit offset : Int) (messages : List Row)
deriving Repr, DecidableEq

/-- The `chat:join` handler of `ChatEvents.register`: presence guard on roomId
and userId, then join the transport group, notify the other room members with
`chat:userJoined`, and ack the caller with `chat:joined`. (The timestamp field
of the notification payload is omitted from the model.) -/
def chatJoinHandler (socketId : String) (roomId userId : Option String) :
    List Effect :=
  if !(truthy roomId && truthy userId) then
    [.emitSelf "chat:error" "roomId and userId are required"]
  else
    [.joinTransport (roomId.getD ""),
     .emitRoomOthers (roomId.getD "") "chat:userJoined"
       [("userId", userId.getD ""), ("socketId", socketId)],
     .emitJoined (roomId.getD "") (userId.getD "")]

/-- The `chat:send` handler of `ChatEvents.register`: presence guard, then
`ChatService.sendMessage`; on success the persisted row (plus the originating
socket id) is broadcast to the whole room as `chat:receive`, on failure the
error is sent to the caller only as `chat:error`. -/
def chatSendHandler (socketId : String) (roomId userId message : Option String)
    (store : MessageStore) : MessageStore × List Effect :=
  if !(truthy roomId && truthy userId && truthy message) then
    (store, [.emitSelf "chat:error" "roomId, userId, and message are required"])
  else
    match sendMessage store roomId userId message with
    | (store2, .ok row) =>
      (store2, [.emitReceiveAll (roomId.getD "") row socketId])
    | (_, .err e) =>
      (store, [.emitSelf "chat:error" e])

/-- The `chat:getHistory` handler of `ChatEvents.register`: destructuring
defaults (limit 50, offset 0 when the field is absent), presence guard on
roomId, then `ChatService.getChatHistory` which passes limit and offset to
the store's range read unchanged and replies `chat:history` to the caller. -/
def chatGetHistoryHandler (roomId : Option String) (limit offset : Option Int)
    (store : MessageStore) : List Effect :=
  if !(truthy roomId) then
    [.emitSelf "chat:error" "roomId is required"]
  else
    let l := limit.getD 50
    let o := offset.getD 0
    [.storeQuery (roomId.getD "") l o,
     .emitHistory (roomId.getD "") l o
       (getMessagesByRoom store (roomId.getD "") l o)]

/-- A connected socket as `SocketHandler.handleDisconnection` sees it: its id
and the rooms it is in (`socket.rooms`, which contains the socket's own id
room per the transport layer's contract). -/
structure Socket where
  id : String
  rooms : List String
deriving Repr, DecidableEq

/-- `SocketHandler.handleDisconnection`: for every room of the socket other
than its own id room, notify the remaining members with a `userDisconnected`
event carrying the socket id and the disconnect reason. -/
def handleDisconnection (socket : Socket) (reason : String) : List Effect :=
  (socket.rooms.filter (fun r => r ≠ socket.id)).map (fun r =>
    .emitRoomOthers r "userDisconnected"
      [("socketId", socket.id), ("reason", reason)])

/-- Room membership as the transport layer tracks it: room id to member
socket ids. -/
abbrev RoomRegistry := List (String × List String)

/-- Members of a room (empty when the room is unknown). -/
def membersOf (reg : RoomRegistry) (room : String) : List String :=
  match reg.find? (fun p => p.1 == room) with
  | none => []
  | some p => p.2

/-- Modelled from the spec: the transport layer (Socket.IO, not part of this
repository's source) removes a disconnected connection from every room it had
joined, per the spec's `Registry.removeConnection` contract for disconnect. -/
def transportRemoveConnection (reg : RoomRegistry) (socketId : String) :
    RoomRegistry :=
  reg.map (fun p => (p.1, p.2.filter (fun m => m ≠ socketId)))

/-- A string is empty exactly when its length is zero. -/
theorem str_empty_iff (s : String) : s = "" ↔ s.length = 0 := by
  cases s with
  | mk l =>
    constructor
    · intro h
      have h2 : l = [] := congrArg String.data h
      simp [String.length, h2]
    · intro h
      have h2 : l = [] := by simpa [String.length] using h
      rw [h2]

/-- A single-character global replace distributes over concatenation. -/
theorem jsReplaceAll_append (t : Char) (r xs ys : List Char) :
    jsReplaceAll t r (xs ++ ys) = jsReplaceAll t r xs ++ jsReplaceAll t r ys := by
  induction xs with
  | nil => rfl
  | cons a xs ih => simp [jsReplaceAll, ih]

/-- The six-replace chain distributes over concatenation. -/
theorem sanitizeChars_append (xs ys : List Char) :
    sanitizeChars (xs ++ ys) = sanitizeChars xs ++ sanitizeChars ys := by
  simp [sanitizeChars, jsReplaceAll_append]

/-- On one character the six-replace chain produces exactly the character's
entity: the entities introduced by an earlier replace are never rewritten by
a later one. -/
theorem sanitizeChars_singleton (a : Char) : sanitizeChars [a] = escapeChar a := by
  by_cases h1 : a = '&'
  · subst h1; decide
  · by_cases h2 : a = '<'
    · subst h2; decide
    · by_cases h3 : a = '>'
      · subst h3; decide
      · by_cases h4 : a = quoteChar
        · subst h4; decide
        · by_cases h5 : a = aposChar
          · subst h5; decide
          · by_cases h6 : a = '/'
            · subst h6; decide
            · simp [sanitizeChars, jsReplaceAll, escapeChar,
                h1, h2, h3, h4, h5, h6]

/-- The sequential replace chain equals the single left-to-right pass. -/
theorem sanitizeChars_eq_escapeAll (s : List Char) :
    sanitizeChars s = escapeAll s := by
  induction s with
  | nil => rfl
  | cons a s ih =>
    calc sanitizeChars (a :: s) = sanitizeChars ([a] ++ s) := rfl
      _ = sanitizeChars [a] ++ sanitizeChars s := sanitizeChars_append [a] s
      _ = escapeChar a ++ escapeAll s := by rw [sanitizeChars_singleton, ih]
      _ = escapeAll (a :: s) := rfl

/-- Claim C3: `sanitizeHtml` replaces each occurrence of the characters
ampersand, less-than, greater-than, double-quote, apostrophe and slash by its
HTML entity, in the source's scan order, applied once and not recursively —
it coincides with the single left-to-right escaping pass on every input — and
in particular sanitizing the string containing a script tag yields the
escaped form. -/
theorem sanitizeHtml_single_pass :
    (∀ s : String, sanitizeHtml s = sanitizeSpec s) ∧
      sanitizeHtml "<script>" = "&lt;script&gt;" := by
  constructor
  · intro s
    unfold sanitizeHtml sanitizeSpec
    rw [sanitizeChars_eq_escapeAll]
  · decide

/-- Claim C8: sanitization is not idempotent: re-sanitizing the sanitized
ampersand string changes it again, yielding the doubly escaped entity. -/
theorem sanitize_not_idempotent :
    sanitizeHtml (sanitizeHtml "&") = "&amp;amp;" ∧
      sanitizeHtml (sanitizeHtml "&") ≠ sanitizeHtml "&" := by
  refine ⟨?_, ?_⟩ <;> decide

/-- Claim C9 counterexample: the one-character whitespace-only room
identifier has length 1, inside the claimed accepting range, yet
`validateRoomId` rejects it as empty after trimming. -/
theorem validateRoomId_whitespace_cex :
    validateRoomId (some " ") = .invalid "roomId cannot be empty" ∧
      (" " : String).length = 1 := by
  refine ⟨?_, ?_⟩ <;> decide

/-- Claim C9 (amended): an absent identifier is rejected, and a room
identifier string is accepted exactly when its length lies in the range
1 to 100 and it is not whitespace-only (non-empty after trimming). -/
theorem validateRoomId_valid_iff :
    validateRoomId none ≠ .valid ∧
    ∀ s : String, validateRoomId (some s) = .valid ↔
      1 ≤ s.length ∧ s.length ≤ 100 ∧ jsTrim s ≠ "" := by
  refine ⟨by decide, fun s => ?_⟩
  show (if s = "" then VResult.invalid "roomId is required"
    else if (jsTrim s).length = 0 then VResult.invalid "roomId cannot be empty"
    else if s.length > 100 then VResult.invalid "roomId too long (max 100 characters)"
    else VResult.valid) = VResult.valid ↔ _
  by_cases h0 : s = ""
  · subst h0
    simp
  · rw [if_neg h0]
    by_cases h1 : (jsTrim s).length = 0
    · rw [if_pos h1]
      have ht : jsTrim s = "" := (str_empty_iff (jsTrim s)).mpr h1
      simp [ht]
    · rw [if_neg h1]
      by_cases h2 : s.length > 100
      · rw [if_pos h2]
        constructor
        · intro h; exact absurd h (by simp)
        · intro h; omega
      · rw [if_neg h2]
        have hlen : 1 ≤ s.length := by
          rcases Nat.eq_zero_or_pos s.length with hz | hp
          · exact absurd ((str_empty_iff s).mpr hz) h0
          · exact hp
        have ht : jsTrim s ≠ "" := fun h =>
          h1 ((str_empty_iff (jsTrim s)).mp h)
        simp [hlen, ht]
        omega

/-- A `chat:send` request whose fields are all present (truthy) and whose
trimmed message is non-empty and within the length bound appends exactly one
row — room, sender, and the trimmed content verbatim — and broadcasts that
row to the room as `chat:receive`. -/
theorem chatSend_success_eq (socketId roomId userId msg : String)
    (store : MessageStore) (hr : roomId ≠ "") (hu : userId ≠ "")
    (hne : (jsTrim msg).length ≠ 0) (hlen : (jsTrim msg).length ≤ 1000) :
    chatSendHandler socketId (some roomId) (some userId) (some msg) store =
      (store ++ [⟨roomId, userId, jsTrim msg⟩],
       [.emitReceiveAll roomId ⟨roomId, userId, jsTrim msg⟩ socketId]) := by
  have hmsg : msg ≠ "" := by
    intro h
    apply hne
    subst h
    rfl
  have h1000 : ¬ ((jsTrim msg).length > 1000) := by omega
  simp [chatSendHandler, sendMessage, saveMessage, truthy,
    hr, hu, hmsg, hne, h1000]

/-- Claim C1 counterexample: the send operation accepts a message containing
a raw less-than character and persists it unescaped: the stored content is
the raw input, which still contains the less-than character and differs from
its sanitized form. -/
theorem chatSend_no_sanitize_cex :
    (chatSendHandler "s1" (some "r1") (some "alice") (some "<script>") []).1 =
      [⟨"r1", "alice", "<script>"⟩] ∧
    '<' ∈ ("<script>" : String).data ∧
    sanitizeHtml "<script>" ≠ "<script>" := by
  refine ⟨?_, ?_, ?_⟩ <;> decide

/-- Claim C1 (amended): for every message accepted by the send operation the
content persisted to the message store is the trimmed input verbatim — no
HTML escaping is applied on the send path, so raw special characters are
stored as they arrived. -/
theorem chatSend_persists_trimmed_raw (socketId roomId userId msg : String)
    (store : MessageStore) (hr : roomId ≠ "") (hu : userId ≠ "")
    (hne : (jsTrim msg).length ≠ 0) (hlen : (jsTrim msg).length ≤ 1000) :
    (chatSendHandler socketId (some roomId) (some userId) (some msg) store).1 =
      store ++ [⟨roomId, userId, jsTrim msg⟩] := by
  rw [chatSend_success_eq socketId roomId userId msg store hr hu hne hlen]

/-- Claim C1 witness: a concrete accepted message whose persisted row holds
the raw trimmed content. -/
theorem chatSend_persists_trimmed_raw_w :
    ("r1" : String) ≠ "" ∧ ("alice" : String) ≠ "" ∧
    (jsTrim " <b>hi</b> ").length ≠ 0 ∧ (jsTrim " <b>hi</b> ").length ≤ 1000 ∧
    (chatSendHandler "s1" (some "r1") (some "alice") (some " <b>hi</b> ") []).1 =
      [] ++ [⟨"r1", "alice", jsTrim " <b>hi</b> "⟩] :=
  ⟨by decide, by decide, by decide, by decide,
    chatSend_persists_trimmed_raw "s1" "r1" "alice" " <b>hi</b> " []
      (by decide) (by decide) (by decide) (by decide)⟩

/-- Claim C2 counterexample: a sender whose user identifier and whose
connection identifier are both denied by `checkRateLimit` (their windows are
full and unexpired) still has the message persisted and broadcast by the
`chat:send` handler — the handler never consults the rate limiter. -/
theorem chatSend_rate_limit_cex :
    (checkRateLimit [("alice", ⟨100, 60000⟩)] "alice" 100 60000 30000).1 =
      false ∧
    (checkRateLimit [("s1", ⟨100, 60000⟩)] "s1" 100 60000 30000).1 = false ∧
    chatSendHandler "s1" (some "r1") (some "alice") (some "hi") [] =
      ([⟨"r1", "alice", "hi"⟩],
       [.emitReceiveAll "r1" ⟨"r1", "alice", "hi"⟩ "s1"]) := by
  refine ⟨?_, ?_, ?_⟩ <;> decide

/-- Claim C2 (amended): the `chat:send` path performs no rate limiting:
even when `checkRateLimit` would deny the caller's identifier in the current
rate-limit store, a well-formed send request is persisted to the message
store and broadcast to the room. -/
theorem chatSend_no_rate_limiting (rl : RateStore) (ident : String)
    (maxR wMs now : Nat)
    (hdeny : (checkRateLimit rl ident maxR wMs now).1 = false)
    (socketId roomId userId msg : String) (store : MessageStore)
    (hr : roomId ≠ "") (hu : userId ≠ "")
    (hne : (jsTrim msg).length ≠ 0) (hlen : (jsTrim msg).length ≤ 1000) :
    chatSendHandler socketId (some roomId) (some userId) (some msg) store =
      (store ++ [⟨roomId, userId, jsTrim msg⟩],
       [.emitReceiveAll roomId ⟨roomId, userId, jsTrim msg⟩ socketId]) :=
  chatSend_success_eq socketId roomId userId msg store hr hu hne hlen

/-- Claim C2 witness: a concrete over-limit sender whose send request is
nevertheless persisted and broadcast. -/
theorem chatSend_no_rate_limiting_w :
    (checkRateLimit [("alice", ⟨100, 60000⟩)] "alice" 100 60000 30000).1 =
      false ∧
    ("r1" : String) ≠ "" ∧ ("alice" : String) ≠ "" ∧
    (jsTrim "hi").length ≠ 0 ∧ (jsTrim "hi").length ≤ 1000 ∧
    chatSendHandler "s1" (some "r1") (some "alice") (some "hi") [] =
      ([] ++ [⟨"r1", "alice", jsTrim "hi"⟩],
       [.emitReceiveAll "r1" ⟨"r1", "alice", jsTrim "hi"⟩ "s1"]) :=
  ⟨by decide, by decide, by decide, by decide, by decide,
    chatSend_no_rate_limiting [("alice", ⟨100, 60000⟩)] "alice" 100 60000 30000
      (by decide) "s1" "r1" "alice" "hi" []
      (by decide) (by decide) (by decide) (by decide)⟩

/-- Claim C6: a send request whose message is empty after trimming fails
with a validation error emitted to the sender only: the store is unchanged
and the only effect is a single `chat:error` to the caller — no broadcast. -/
theorem chatSend_empty_message_error (socketId : String)
    (roomId userId : Option String) (msg : String)
    (h : jsTrim msg = "") (store : MessageStore) :
    ∃ e, chatSendHandler socketId roomId userId (some msg) store =
      (store, [.emitSelf "chat:error" e]) := by
  have hlen : (jsTrim msg).length = 0 := by rw [h]; rfl
  by_cases hg : (truthy roomId && truthy userId && truthy (some msg)) = true
  · refine ⟨"Message content cannot be empty", ?_⟩
    simp [chatSendHandler, sendMessage, hg, hlen]
  · refine ⟨"roomId, userId, and message are required", ?_⟩
    simp [chatSendHandler, hg]

/-- Claim C6 witness: the concrete all-whitespace message. -/
theorem chatSend_empty_message_error_w :
    jsTrim "   " = "" ∧
    ∃ e, chatSendHandler "s1" (some "r1") (some "alice") (some "   ") [] =
      ([], [.emitSelf "chat:error" e]) :=
  ⟨by decide,
    chatSend_empty_message_error "s1" (some "r1") (some "alice") "   "
      (by decide) []⟩

/-- Claim C10: a `chat:join` request with a present roomId but an absent or
falsy userId only emits a `chat:error` with the message that roomId and
userId are required: no transport join and no `chat:userJoined`
notification occur. -/
theorem chatJoin_requires_userId (socketId roomId : String)
    (userId : Option String) (hr : roomId ≠ "") (hu : truthy userId = false) :
    chatJoinHandler socketId (some roomId) userId =
      [.emitSelf "chat:error" "roomId and userId are required"] := by
  simp [chatJoinHandler, hu]

/-- Claim C10 witness: a concrete join request with roomId present and
userId absent. -/
theorem chatJoin_requires_userId_w :
    ("r1" : String) ≠ "" ∧ truthy none = false ∧
    chatJoinHandler "s1" (some "r1") none =
      [.emitSelf "chat:error" "roomId and userId are required"] :=
  ⟨by decide, by decide,
    chatJoin_requires_userId "s1" "r1" none (by decide) (by decide)⟩

/-- Claim C4 counterexample: a `chat:getHistory` request with limit 101 —
out of the claimed valid range, and rejected by `validatePagination` — is
not answered with an error: the range read reaches the store with limit 101
and the history is returned. -/
theorem getHistory_out_of_range_cex :
    chatGetHistoryHandler (some "r1") (some 101) (some 0) [] =
      [.storeQuery "r1" 101 0, .emitHistory "r1" 101 0 []] ∧
    validatePagination (some 101) (some 0) =
      .invalid "limit cannot exceed 100" := by
  refine ⟨?_, ?_⟩ <;> decide

/-- Claim C4 (amended): the `chat:getHistory` handler defaults an absent
limit to 50 and an absent offset to 0 but performs no range validation:
whatever limit and offset the caller supplies reach the store's range read
unchanged, with the `chat:history` reply and no error. `validatePagination`
itself behaves as the spec describes — defaults 50 and 0, limit confined to
1..100, offset non-negative — but is never invoked on this path. -/
theorem getHistory_no_param_validation (roomId : String) (hr : roomId ≠ "")
    (limit offset : Option Int) (store : MessageStore) :
    chatGetHistoryHandler (some roomId) limit offset store =
      [.storeQuery roomId (limit.getD 50) (offset.getD 0),
       .emitHistory roomId (limit.getD 50) (offset.getD 0)
         (getMessagesByRoom store roomId (limit.getD 50) (offset.getD 0))] ∧
    validatePagination none none = .valid 50 0 ∧
    validatePagination (some 101) (some 0) =
      .invalid "limit cannot exceed 100" ∧
    validatePagination (some 0) (some 0) =
      .invalid "limit must be a positive integer" ∧
    validatePagination (some (-1)) (some 5) =
      .invalid "limit must be a positive integer" ∧
    validatePagination (some 50) (some (-1)) =
      .invalid "offset must be a non-negative integer" := by
  refine ⟨?_, by decide, by decide, by decide, by decide, by decide⟩
  simp [chatGetHistoryHandler, truthy, hr]

/-- Claim C4 witness: a concrete getHistory request with an out-of-range
limit that reaches the store unchanged. -/
theorem getHistory_no_param_validation_w :
    ("r1" : String) ≠ "" ∧
    (chatGetHistoryHandler (some "r1") (some 1000) (some (-7)) [] =
      [.storeQuery "r1" ((some (1000 : Int)).getD 50)
          ((some (-7 : Int)).getD 0),
       .emitHistory "r1" ((some (1000 : Int)).getD 50)
          ((some (-7 : Int)).getD 0)
          (getMessagesByRoom [] "r1" ((some (1000 : Int)).getD 50)
            ((some (-7 : Int)).getD 0))] ∧
      validatePagination none none = .valid 50 0 ∧
      validatePagination (some 101) (some 0) =
        .invalid "limit cannot exceed 100" ∧
      validatePagination (some 0) (some 0) =
        .invalid "limit must be a positive integer" ∧
      validatePagination (some (-1)) (some 5) =
        .invalid "limit must be a positive integer" ∧
      validatePagination (some 50) (some (-1)) =
        .invalid "offset must be a non-negative integer") :=
  ⟨by decide,
    getHistory_no_param_validation "r1" (by decide) (some 1000) (some (-7)) []⟩

/-- Claim C5 counterexample: a disconnecting connection in one room produces
exactly one notification to that room, and its event name is
`userDisconnected`, not the claimed `chat:userDisconnected`. -/
theorem disconnect_event_name_cex :
    handleDisconnection ⟨"A", ["A", "r1"]⟩ "transport close" =
      [.emitRoomOthers "r1" "userDisconnected"
        [("socketId", "A"), ("reason", "transport close")]] ∧
    ("userDisconnected" : String) ≠ "chat:userDisconnected" := by
  refine ⟨?_, ?_⟩ <;> decide

/-- After the transport layer removes a connection, it is a member of no
room. -/
theorem not_mem_membersOf_remove (reg : RoomRegistry) (sid rm : String) :
    sid ∉ membersOf (transportRemoveConnection reg sid) rm := by
  induction reg with
  | nil => simp [transportRemoveConnection, membersOf]
  | cons p reg ih =>
    by_cases h : p.1 == rm
    · simp [transportRemoveConnection, membersOf, List.find?, h]
    · simpa [transportRemoveConnection, membersOf, List.find?, h] using ih

/-- Claim C5 (amended): on disconnect, every room the connection had joined
(other than its own-id transport room) is notified with a `userDisconnected`
event — no `chat:` prefix — carrying the connection identifier and the
disconnect reason; these notifications are the only effects; and once the
transport layer removes the connection it is a member of no room. -/
theorem disconnect_notifies_and_removes (socket : Socket) (reason : String)
    (room : String) (hmem : room ∈ socket.rooms) (hne : room ≠ socket.id)
    (reg : RoomRegistry) :
    Effect.emitRoomOthers room "userDisconnected"
        [("socketId", socket.id), ("reason", reason)] ∈
      handleDisconnection socket reason ∧
    (∀ e ∈ handleDisconnection socket reason,
      ∃ r, r ∈ socket.rooms ∧ r ≠ socket.id ∧
        e = .emitRoomOthers r "userDisconnected"
          [("socketId", socket.id), ("reason", reason)]) ∧
    (∀ rm, socket.id ∉ membersOf (transportRemoveConnection reg socket.id) rm) := by
  refine ⟨?_, ?_, fun rm => not_mem_membersOf_remove reg socket.id rm⟩
  · unfold handleDisconnection
    apply List.mem_map_of_mem
    simp [List.mem_filter, hmem, hne]
  · intro e he
    unfold handleDisconnection at he
    obtain ⟨r, hr, hre⟩ := List.mem_map.mp he
    refine ⟨r, ?_, ?_, hre.symm⟩
    · exact (List.mem_filter.mp hr).1
    · have := (List.mem_filter.mp hr).2
      simpa using this

/-- Claim C5 witness: a concrete two-member room whose remaining member is
notified and whose registry no longer lists the disconnected connection. -/
theorem disconnect_notifies_and_removes_w :
    "r1" ∈ (Socket.mk "A" ["A", "r1"]).rooms ∧
    ("r1" : String) ≠ (Socket.mk "A" ["A", "r1"]).id ∧
    (Effect.emitRoomOthers "r1" "userDisconnected"
        [("socketId", "A"), ("reason", "transport close")] ∈
      handleDisconnection (Socket.mk "A" ["A", "r1"]) "transport close" ∧
    (∀ e ∈ handleDisconnection (Socket.mk "A" ["A", "r1"]) "transport close",
      ∃ r, r ∈ (Socket.mk "A" ["A", "r1"]).rooms ∧
        r ≠ (Socket.mk "A" ["A", "r1"]).id ∧
        e = .emitRoomOthers r "userDisconnected"
          [("socketId", "A"), ("reason", "transport close")]) ∧
    (∀ rm, (Socket.mk "A" ["A", "r1"]).id ∉
      membersOf (transportRemoveConnection [("r1", ["A", "B"])]
        (Socket.mk "A" ["A", "r1"]).id) rm)) :=
  ⟨by decide, by decide,
    disconnect_notifies_and_removes (Socket.mk "A" ["A", "r1"])
      "transport close" "r1" (by decide) (by decide) [("r1", ["A", "B"])]⟩

/-- Claim C7: `checkRateLimit` is a fixed-window counter: a missing entry is
created with count 1 and reset time now plus the window, an expired entry is
reset the same way, a full unexpired entry denies without mutating the
store, and otherwise the count is incremented; consequently four calls for
one identifier with limit 3 inside one window allow the first three and deny
the fourth unchanged, and a fifth call after the window allows again. -/
theorem checkRateLimit_fixed_window (t1 t2 t3 t4 t5 : Nat)
    (h2 : t2 ≤ t1 + 60000) (h3 : t3 ≤ t1 + 60000) (h4 : t4 ≤ t1 + 60000)
    (h5 : t5 > t1 + 60000) :
    (∀ st id maxR w now, rateLookup st id = none →
        checkRateLimit st id maxR w now = (true, rateSet st id ⟨1, now + w⟩)) ∧
    (∀ st id maxR w now e, rateLookup st id = some e → now > e.resetTime →
        checkRateLimit st id maxR w now = (true, rateSet st id ⟨1, now + w⟩)) ∧
    (∀ st id maxR w now e, rateLookup st id = some e → ¬ now > e.resetTime →
        e.requests ≥ maxR → checkRateLimit st id maxR w now = (false, st)) ∧
    (∀ st id maxR w now e, rateLookup st id = some e → ¬ now > e.resetTime →
        e.requests < maxR →
        checkRateLimit st id maxR w now =
          (true, rateSet st id ⟨e.requests + 1, e.resetTime⟩)) ∧
    (checkRateLimit [] "x" 3 60000 t1 = (true, [("x", ⟨1, t1 + 60000⟩)]) ∧
     checkRateLimit [("x", ⟨1, t1 + 60000⟩)] "x" 3 60000 t2 =
        (true, [("x", ⟨2, t1 + 60000⟩)]) ∧
     checkRateLimit [("x", ⟨2, t1 + 60000⟩)] "x" 3 60000 t3 =
        (true, [("x", ⟨3, t1 + 60000⟩)]) ∧
     checkRateLimit [("x", ⟨3, t1 + 60000⟩)] "x" 3 60000 t4 =
        (false, [("x", ⟨3, t1 + 60000⟩)]) ∧
     checkRateLimit [("x", ⟨3, t1 + 60000⟩)] "x" 3 60000 t5 =
        (true, [("x", ⟨1, t5 + 60000⟩)])) := by
  have hn2 : ¬ (t2 > t1 + 60000) := by omega
  have hn3 : ¬ (t3 > t1 + 60000) := by omega
  have hn4 : ¬ (t4 > t1 + 60000) := by omega
  refine ⟨?_, ?_, ?_, ?_, ?_, ?_, ?_, ?_, ?_⟩
  · intro st id maxR w now h
    simp [checkRateLimit, h]
  · intro st id maxR w now e hl hnow
    simp [checkRateLimit, hl, hnow]
  · intro st id maxR w now e hl hnow hge
    simp [checkRateLimit, hl, hnow, hge]
  · intro st id maxR w now e hl hnow hlt
    simp [checkRateLimit, hl, hnow, Nat.not_le.mpr hlt]
  · simp [checkRateLimit, rateLookup, rateSet, List.find?]
  · simp [checkRateLimit, rateLookup, rateSet, List.find?, hn2]
  · simp [checkRateLimit, rateLookup, rateSet, List.find?, hn3]
  · simp [checkRateLimit, rateLookup, rateSet, List.find?, hn4]
  · simp [checkRateLimit, rateLookup, rateSet, List.find?, h5]

/-- Claim C7 witness: the four-then-deny-then-reset scenario at concrete
clock times 0, 1000, 2000, 3000 and 60001. -/
theorem checkRateLimit_fixed_window_w :
    1000 ≤ 0 + 60000 ∧ 2000 ≤ 0 + 60000 ∧ 3000 ≤ 0 + 60000 ∧
    60001 > 0 + 60000 ∧
    ((∀ st id maxR w now, rateLookup st id = none →
        checkRateLimit st id maxR w now = (true, rateSet st id ⟨1, now + w⟩)) ∧
    (∀ st id maxR w now e, rateLookup st id = some e → now > e.resetTime →
        checkRateLimit st id maxR w now = (true, rateSet st id ⟨1, now + w⟩)) ∧
    (∀ st id maxR w now e, rateLookup st id = some e → ¬ now > e.resetTime →
        e.requests ≥ maxR → checkRateLimit st id maxR w now = (false, st)) ∧
    (∀ st id maxR w now e, rateLookup st id = some e → ¬ now > e.resetTime →
        e.requests < maxR →
        checkRateLimit st id maxR w now =
          (true, rateSet st id ⟨e.requests + 1, e.resetTime⟩)) ∧
    (checkRateLimit [] "x" 3 60000 0 = (true, [("x", ⟨1, 0 + 60000⟩)]) ∧
     checkRateLimit [("x", ⟨1, 0 + 60000⟩)] "x" 3 60000 1000 =
        (true, [("x", ⟨2, 0 + 60000⟩)]) ∧
     checkRateLimit [("x", ⟨2, 0 + 60000⟩)] "x" 3 60000 2000 =
        (true, [("x", ⟨3, 0 + 60000⟩)]) ∧
     checkRateLimit [("x", ⟨3, 0 + 60000⟩)] "x" 3 60000 3000 =
        (false, [("x", ⟨3, 0 + 60000⟩)]) ∧
     checkRateLimit [("x", ⟨3, 0 + 60000⟩)] "x" 3 60000 60001 =
        (true, [("x", ⟨1, 60001 + 60000⟩)]))) :=
  ⟨by decide, by decide, by decide, by decide,
    checkRateLimit_fixed_window 0 1000 2000 3000 60001
      (by decide) (by decide) (by decide) (by decide)⟩
